import Mathlib

/-!
Verification of the fastapi-lambda-boilerplate service.

The embedding follows the source files:
- app/api/hello/service.py   : the greeting rule generate_greeting
- app/api/hello/schemas.py   : HelloResponse
- app/api/hello/router.py    : the GET /hello handler
- app/api/health/router.py   : the GET /health handler
- app/api/routes.py          : the aggregated router (hello then health)

A request is modelled as a path plus the optional name query parameter,
and a route either answers with a status code and an ordered list of
JSON body fields, or declines the request so the next route can try.
-/

/-- Greeting rule from app/api/hello/service.py.  Python evaluates
`if name:` as truthy exactly when the argument is neither None nor the
empty string, in which case the f-string produces
"Hello " followed by the name followed by "!";
otherwise the function returns "Hello World!". -/
def generate_greeting (name : Option String) : String :=
  match name with
  | some n => if n ≠ "" then "Hello " ++ n ++ "!" else "Hello World!"
  | none => "Hello World!"

/-- Response model from app/api/hello/schemas.py: a single required
text field message. -/
structure HelloResponse where
  message : String
deriving DecidableEq, Repr

/-- Modelled from the spec: the file app/api/health/schemas.py is not
present under src although app/api/health/router.py imports
HealthResponse from it; the spec defines HealthResponse as one field,
status (text, constant "healthy" in the success path). -/
structure HealthResponse where
  status : String
deriving DecidableEq, Repr

/-- JSON serialization of a HelloResponse body as an ordered field list. -/
def HelloResponse.fields (r : HelloResponse) : List (String × String) :=
  [("message", r.message)]

/-- JSON serialization of a HealthResponse body as an ordered field list. -/
def HealthResponse.fields (r : HealthResponse) : List (String × String) :=
  [("status", r.status)]

/-- Handler body of GET /hello from app/api/hello/router.py: apply the
greeting rule to the optional name query parameter and wrap the result
in a HelloResponse. -/
def hello (name : Option String) : HelloResponse :=
  { message := generate_greeting name }

/-- Handler body of GET /health from app/api/health/router.py: always
return a HealthResponse with status "healthy". -/
def health : HealthResponse :=
  { status := "healthy" }

/-- An HTTP GET request as seen by the aggregated router: a path and
the optional name query parameter (some "" models `?name=`). -/
structure Request where
  path : String
  name : Option String
deriving DecidableEq, Repr

/-- A route answers a request with a status code and a JSON body, or
declines it so dispatch can try the next route. -/
def Route : Type :=
  Request → Option (Nat × List (String × String))

/-- The hello route: GET /hello runs the hello handler with the name
query parameter and responds 200. -/
def helloRoute : Route :=
  fun req =>
    if req.path = "/hello" then some (200, (hello req.name).fields) else none

/-- The health route: GET /health runs the health handler and
responds 200. -/
def healthRoute : Route :=
  fun req =>
    if req.path = "/health" then some (200, health.fields) else none

/-- First-match dispatch over an ordered list of routes, the order in
which include_router was called. -/
def dispatch : List Route → Request → Option (Nat × List (String × String))
  | [], _ => none
  | r :: rs, req =>
    match r req with
    | some resp => some resp
    | none => dispatch rs req

/-- Aggregated router from app/api/routes.py: the hello router is
included before the health router. -/
def apiRouter : List Route :=
  [helloRoute, healthRoute]

/-- The same two feature routers included in the opposite order. -/
def apiRouterSwapped : List Route :=
  [healthRoute, helloRoute]

/-- Helper: on a non-empty name the greeting rule takes its truthy
branch. -/
theorem greet_some_of_ne (n : String) (h : n ≠ "") :
    generate_greeting (some n) = "Hello " ++ n ++ "!" := by
  simp [generate_greeting, h]

/-- C1: for every non-empty string n, generate_greeting (some n)
returns exactly "Hello " concatenated with n concatenated with "!". -/
theorem generate_greeting_nonempty (n : String) (h : n ≠ "") :
    generate_greeting (some n) = "Hello " ++ n ++ "!" :=
  greet_some_of_ne n h

theorem generate_greeting_nonempty_witness :
    "Ada" ≠ "" ∧ generate_greeting (some "Ada") = "Hello " ++ "Ada" ++ "!" :=
  ⟨by decide, generate_greeting_nonempty "Ada" (by decide)⟩

/-- C2: when the name is absent and when it is the empty string, the
greeting rule returns the constant "Hello World!". -/
theorem generate_greeting_default :
    generate_greeting none = "Hello World!" ∧
    generate_greeting (some "") = "Hello World!" := by
  constructor
  · rfl
  · simp [generate_greeting]

/-- C3: for every optional name input the hello endpoint, reached
through the aggregated router, succeeds with status 200 and a body
whose single field message equals generate_greeting of that name; in
particular no name yields message "Hello World!" and name Ada yields
message "Hello Ada!". -/
theorem hello_endpoint_ok :
    (∀ name : Option String,
      dispatch apiRouter { path := "/hello", name := name } =
        some (200, [("message", generate_greeting name)])) ∧
    dispatch apiRouter { path := "/hello", name := none } =
      some (200, [("message", "Hello World!")]) ∧
    dispatch apiRouter { path := "/hello", name := some "Ada" } =
      some (200, [("message", "Hello Ada!")]) := by
  refine ⟨fun name => ?_, ?_, ?_⟩
  · simp [dispatch, apiRouter, helloRoute, hello, HelloResponse.fields]
  · simp [dispatch, apiRouter, helloRoute, hello, HelloResponse.fields,
      generate_greeting]
  · simp [dispatch, apiRouter, helloRoute, hello, HelloResponse.fields,
      generate_greeting]

/-- C4: the health endpoint handler always returns a body exactly
equal to the single field status = "healthy", and the health route
answers every request to /health, whatever its query input, with
status 200 and exactly that body. -/
theorem health_endpoint_ok :
    health = { status := "healthy" } ∧
    ∀ req : Request,
      healthRoute req =
        if req.path = "/health" then some (200, [("status", "healthy")])
        else none := by
  refine ⟨rfl, fun req => ?_⟩
  simp [healthRoute, health, HealthResponse.fields]

/-- C5: the greeting rule is total over its whole input domain: every
input, None or any string, is covered by one of the two return
statements of the source, so the function always returns a string and
no error branch exists or is reachable. -/
theorem generate_greeting_total (name : Option String) :
    generate_greeting name = "Hello World!" ∨
    ∃ n : String, name = some n ∧ n ≠ "" ∧
      generate_greeting name = "Hello " ++ n ++ "!" := by
  match name with
  | none => exact Or.inl rfl
  | some n =>
    by_cases h : n = ""
    · subst h
      exact Or.inl (by simp [generate_greeting])
    · exact Or.inr ⟨n, rfl, h, greet_some_of_ne n h⟩

/-- C6: every message produced by the greeting rule is non-empty, so
the message field of the HelloResponse built by the hello handler is
non-empty for every optional name input. -/
theorem hello_message_ne_empty (name : Option String) :
    (hello name).message ≠ "" := by
  show generate_greeting name ≠ ""
  match name with
  | none => decide
  | some n =>
    by_cases h : n = ""
    · subst h
      simp [generate_greeting]
    · rw [greet_some_of_ne n h]
      intro hc
      have hl := congrArg String.length hc
      simp [String.length_append] at hl
      exact absurd hl.2 (by decide)

/-- C7: the hello endpoint is deterministic: two invocations of the
aggregated router at /hello with the same optional name value yield
identical responses. -/
theorem hello_deterministic (n1 n2 : Option String) (h : n1 = n2) :
    dispatch apiRouter { path := "/hello", name := n1 } =
    dispatch apiRouter { path := "/hello", name := n2 } := by
  rw [h]

theorem hello_deterministic_witness :
    dispatch apiRouter { path := "/hello", name := some "Ada" } =
    dispatch apiRouter { path := "/hello", name := some "Ada" } :=
  hello_deterministic (some "Ada") (some "Ada") rfl

/-- C8: composing the hello and health routers in either order gives
the same behaviour on every request, because the paths /hello and
/health are disjoint. -/
theorem router_order_immaterial (req : Request) :
    dispatch apiRouter req = dispatch apiRouterSwapped req := by
  by_cases h1 : req.path = "/hello" <;> by_cases h2 : req.path = "/health" <;>
    simp [dispatch, apiRouter, apiRouterSwapped, helloRoute, healthRoute, h1, h2]

/-- C9: the greeting rule is injective on non-empty names: distinct
non-empty strings always receive distinct greetings. -/
theorem generate_greeting_injective (n1 n2 : String) (h1 : n1 ≠ "")
    (h2 : n2 ≠ "") (hne : n1 ≠ n2) :
    generate_greeting (some n1) ≠ generate_greeting (some n2) := by
  rw [greet_some_of_ne n1 h1, greet_some_of_ne n2 h2]
  intro hc
  apply hne
  have hd := congrArg String.data hc
  simp [String.data_append] at hd
  exact String.ext hd

theorem generate_greeting_injective_witness :
    "Ada" ≠ "" ∧ "Bob" ≠ "" ∧ "Ada" ≠ "Bob" ∧
    generate_greeting (some "Ada") ≠ generate_greeting (some "Bob") :=
  ⟨by decide, by decide, by decide,
    generate_greeting_injective "Ada" "Bob" (by decide) (by decide) (by decide)⟩

/-- C10: for every optional name input the string returned by
generate_greeting starts with "Hello " and ends with "!": some text
extends "Hello " on the right to give it, and some text extends "!"
on the left to give it. -/
theorem generate_greeting_shape (name : Option String) :
    (∃ t : String, generate_greeting name = "Hello " ++ t) ∧
    (∃ s : String, generate_greeting name = s ++ "!") := by
  have core : ∃ mid : String,
      generate_greeting name = "Hello " ++ mid ++ "!" := by
    match name with
    | none => exact ⟨"World", rfl⟩
    | some n =>
      by_cases h : n = ""
      · subst h
        exact ⟨"World", by simp [generate_greeting]⟩
      · exact ⟨n, greet_some_of_ne n h⟩
  obtain ⟨mid, hm⟩ := core
  constructor
  · exact ⟨mid ++ "!", by rw [hm, String.append_assoc]⟩
  · exact ⟨"Hello " ++ mid, hm⟩
